import Mathlib

/-!
Shallow embedding of the session / transaction orchestration layer of the
`juniper.device` Ansible collection
(`plugins/module_utils/juniper_junos_common.py` and `plugins/modules/rpc.py`).

Pure Lean functions mirror the Python methods; implicit module state
(`self.dev`, `self.config`, `self.conn_type`) becomes an explicit
`ModuleState` record, device interactions become an emitted `Event` list, and
`self.fail_json(msg=...)` becomes an `Option String` failure message in the
result.
-/

namespace JunosCommon

/-! ## Checksum helpers: `local_md5`, `remote_md5` -/

/-- Outcome of an underlying checksum computation / checksum RPC: either a
checksum string, or the message of the exception the operation raised. -/
inductive Md5Result where
  | ok (checksum : String)
  | err (msg : String)
deriving Repr, DecidableEq

/-- Whether `needle` occurs as a contiguous sublist of `hay`. -/
def listIsInfixOf (needle hay : List Char) : Bool :=
  match hay with
  | [] => needle.isEmpty
  | _ :: t => needle.isPrefixOf hay || listIsInfixOf needle t

/-- Python's `needle in hay` substring test. -/
def containsSubstr (hay needle : String) : Bool :=
  listIsInfixOf needle.toList hay.toList

/-- `JuniperJunosModule.local_md5(package, action)`: on an exception whose
message contains "No such file" while `action == "get"`, return the sentinel
`"no_file"`; otherwise re-raise. -/
def local_md5 (hashResult : Md5Result) (action : String) : Md5Result :=
  match hashResult with
  | .ok checksum => .ok checksum
  | .err e =>
      if containsSubstr e "No such file" ∧ action = "get" then .ok "no_file"
      else .err e

/-- `JuniperJunosModule.remote_md5(remote_file, action)`: on an exception whose
message contains "No such file or directory" while `action == "put"`, return
the sentinel `"no_file"`; otherwise re-raise. -/
def remote_md5 (rpcResult : Md5Result) (action : String) : Md5Result :=
  match rpcResult with
  | .ok checksum => .ok checksum
  | .err e =>
      if containsSubstr e "No such file or directory" ∧ action = "put" then .ok "no_file"
      else .err e

/-! ## Checksum-verified transfer engine -/

/-- Result of one checksum-verified transfer call: the returned
`[status, flag]` pair, whether the transfer operation itself was executed,
and the `fail_json` message if one was reported. -/
structure TransferOutcome where
  status : String
  flag : Bool
  transferred : Bool
  failJsonMsg : Option String
deriving Repr, DecidableEq

/-- The checksum a `put`-direction `remote_md5` query reports: `"no_file"`
for an absent remote file, the file's checksum otherwise (and symmetrically
for the `get`-direction `local_md5`). -/
def md5Sentinel : Option String → String
  | none => "no_file"
  | some c => c

/-- The failure status string
`"Transfer failed (different MD5 between local and remote) {0} | {1}".format(local, remote)`. -/
def transferFailedStatus (localChecksum remoteChecksum : String) : String :=
  "Transfer failed (different MD5 between local and remote) " ++ localChecksum
    ++ " | " ++ remoteChecksum

/-- Environment of a checksum-verified `put`: the local file's checksum, the
remote file's checksum before the transfer (`none` = file absent, reported as
`"no_file"`), and the remote file's checksum after the transfer. -/
structure PutEnv where
  local_checksum : String
  remote_before : Option String
  remote_after : Option String
deriving Repr, DecidableEq

/-- `JuniperJunosModule.scp_file_copy_put(local_file, remote_file)`. -/
def scp_file_copy_put (env : PutEnv) : TransferOutcome :=
  let local_checksum := env.local_checksum
  let remote_checksum := md5Sentinel env.remote_before
  if remote_checksum = "no_file" ∨ remote_checksum ≠ local_checksum then
    -- SCP put executed here, then the remote checksum is re-queried
    let remote_checksum := md5Sentinel env.remote_after
    if remote_checksum ≠ local_checksum then
      let status := transferFailedStatus local_checksum remote_checksum
      { status := status, flag := false, transferred := true, failJsonMsg := some status }
    else
      { status := "File pushed OK", flag := true, transferred := true, failJsonMsg := none }
  else
    { status := "File already present, skipping the scp", flag := false,
      transferred := false, failJsonMsg := none }

/-- `JuniperJunosModule.ftp_file_copy_put(local_file, remote_file)` — same
decision procedure as the SCP variant, with FTP as the transfer mechanism. -/
def ftp_file_copy_put (env : PutEnv) : TransferOutcome :=
  let local_checksum := env.local_checksum
  let remote_checksum := md5Sentinel env.remote_before
  if remote_checksum = "no_file" ∨ remote_checksum ≠ local_checksum then
    -- FTP put executed here, then the remote checksum is re-queried
    let remote_checksum := md5Sentinel env.remote_after
    if remote_checksum ≠ local_checksum then
      let status := transferFailedStatus local_checksum remote_checksum
      { status := status, flag := false, transferred := true, failJsonMsg := some status }
    else
      { status := "File pushed OK", flag := true, transferred := true, failJsonMsg := none }
  else
    { status := "File already present, skipping the scp", flag := false,
      transferred := false, failJsonMsg := none }

/-- Environment of a checksum-verified `get`: the remote file's checksum, the
local file's checksum before the transfer (`none` = file absent, reported as
`"no_file"`), and the local file's checksum after the transfer. -/
structure GetEnv where
  remote_checksum : String
  local_before : Option String
  local_after : Option String
deriving Repr, DecidableEq

/-- `JuniperJunosModule.scp_file_copy_get(remote_file, local_file)`. -/
def scp_file_copy_get (env : GetEnv) : TransferOutcome :=
  let remote_checksum := env.remote_checksum
  let local_checksum := md5Sentinel env.local_before
  if local_checksum = "no_file" ∨ local_checksum ≠ remote_checksum then
    -- SCP get executed here, then the local checksum is re-computed
    let local_checksum := md5Sentinel env.local_after
    if remote_checksum ≠ local_checksum then
      let status := transferFailedStatus local_checksum remote_checksum
      { status := status, flag := false, transferred := true, failJsonMsg := some status }
    else
      { status := "File pushed OK", flag := true, transferred := true, failJsonMsg := none }
  else
    { status := "File already present, skipping the scp", flag := false,
      transferred := false, failJsonMsg := none }

/-- `JuniperJunosModule.ftp_file_copy_get(remote_file, local_file)` — same
decision procedure as the SCP variant, with FTP as the transfer mechanism. -/
def ftp_file_copy_get (env : GetEnv) : TransferOutcome :=
  let remote_checksum := env.remote_checksum
  let local_checksum := md5Sentinel env.local_before
  if local_checksum = "no_file" ∨ local_checksum ≠ remote_checksum then
    -- FTP get executed here, then the local checksum is re-computed
    let local_checksum := md5Sentinel env.local_after
    if remote_checksum ≠ local_checksum then
      let status := transferFailedStatus local_checksum remote_checksum
      { status := status, flag := false, transferred := true, failJsonMsg := some status }
    else
      { status := "File pushed OK", flag := true, transferred := true, failJsonMsg := none }
  else
    { status := "File already present, skipping the scp", flag := false,
      transferred := false, failJsonMsg := none }

/-! ## Module state, ignore-warning accumulation, configuration session -/

/-- `CONFIG_MODE_CHOICES` from `juniper_junos_common.py`. -/
def CONFIG_MODE_CHOICES : List String :=
  ["exclusive", "private", "dynamic", "batch", "ephemeral"]

/-- `RPC_OUTPUT_FORMAT_CHOICES` from `juniper_junos_common.py`. -/
def RPC_OUTPUT_FORMAT_CHOICES : List String := ["text", "xml", "json"]

/-- An open candidate-configuration session (`self.config`, a PyEZ `Config`):
only its mode matters to the session state machine. -/
structure ConfigSession where
  mode : String
deriving Repr, DecidableEq

/-- The implicit state carried on a `JuniperJunosModule` instance:
connection type (`"local"` or a persistent-connection type), whether
`self.dev` holds an open device, and the stored configuration session
`self.config` (`none` = closed). -/
structure ModuleState where
  conn_type : String
  dev_open : Bool
  config : Option ConfigSession
deriving Repr, DecidableEq

/-- The possible shapes of a caller-supplied `ignore_warning` argument:
a bool, a single string, or a list of strings. -/
inductive IgnoreWarningArg where
  | bool (b : Bool)
  | str (s : String)
  | list (l : List String)
deriving Repr, DecidableEq

/-- The effective ignore-warning value handed to PyEZ: either a bare bool or
a list of warning strings. -/
inductive IgnoreWarnFilter where
  | flag (b : Bool)
  | patterns (l : List String)
deriving Repr, DecidableEq

/-- Whether an effective ignore-warning filter is a list containing the
warning string `w`. -/
def filterIncludes (f : IgnoreWarnFilter) (w : String) : Bool :=
  match f with
  | .flag _ => false
  | .patterns l => w ∈ l

/-- The built-in warning text seeded into the ignore-warning list by
`open_configuration`. -/
def builtinWarning : String := "uncommitted changes will be discarded on exit"

/-- The `ignore_warn` accumulation at the top of
`JuniperJunosModule.open_configuration`: start from
`["uncommitted changes will be discarded on exit"]`; a bool replaces it, a
string is appended to it, a list is concatenated onto it. -/
def effectiveIgnoreWarn (ignore_warning : Option IgnoreWarningArg) : IgnoreWarnFilter :=
  match ignore_warning with
  | some (.bool b) => .flag b
  | some (.str s) => .patterns ([builtinWarning] ++ [s])
  | some (.list l) => .patterns ([builtinWarning] ++ l)
  | none => .patterns [builtinWarning]

/-- Device interactions the embedded methods perform, in order. -/
inductive Event where
  | lock
  | unlock
  | openConfigRpc (mode : String) (iw : IgnoreWarnFilter)
  | openConfigEphemeralInstance (inst : String) (iw : IgnoreWarnFilter)
  | closeConfigRpc
  | rescueRpc
  | rollbackRpc (n : Int)
  | commitRpc (timeout : Nat)
  | forwardToBroker (op : String)
deriving Repr, DecidableEq

/-- The ignore-warning filter an event carries, when it is an
open-configuration call. -/
def eventFilter : Event → Option IgnoreWarnFilter
  | .openConfigRpc _ iw => some iw
  | .openConfigEphemeralInstance _ iw => some iw
  | _ => none

/-- The warning strings a caller-supplied ignore-warning argument
contributes: a string contributes itself, a list contributes its elements,
a bool or an absent argument contributes none. -/
def callerStrings : Option IgnoreWarningArg → List String
  | some (.str s) => [s]
  | some (.list l) => l
  | _ => []

/-- `JuniperJunosModule.open_configuration(mode, ignore_warning, ephemeral_instance)`.
`rpcOk` stands for whether the lock / open-configuration RPC succeeds.
Returns the new state, the device interactions performed, and the
`fail_json` message if one is reported. -/
def open_configuration (s : ModuleState) (mode : String)
    (ignore_warning : Option IgnoreWarningArg) (ephemeral_instance : Option String)
    (rpcOk : Bool) : ModuleState × List Event × Option String :=
  let ignore_warn := effectiveIgnoreWarn ignore_warning
  if s.conn_type ≠ "local" then
    (s, [.forwardToBroker "open_configuration"], none)
  else
    match s.config with
    | some _ => (s, [], none)
    | none =>
        if mode ∉ CONFIG_MODE_CHOICES then
          (s, [], some ("Invalid configuration mode: " ++ mode))
        else if mode ≠ "ephemeral" ∧ ephemeral_instance ≠ none then
          (s, [], some ("Ephemeral instance is specified while the mode "
            ++ "is not ephemeral.Specify the mode as ephemeral or "
            ++ "do not specify the instance."))
        else
          let s := if s.dev_open then s else { s with dev_open := true }
          let ev : List Event :=
            if mode = "exclusive" then [.lock]
            else if mode = "private" then [.openConfigRpc "private" ignore_warn]
            else if mode = "dynamic" then [.openConfigRpc "dynamic" ignore_warn]
            else if mode = "batch" then [.openConfigRpc "batch" ignore_warn]
            else if mode = "ephemeral" then
              match ephemeral_instance with
              | none => [.openConfigRpc "ephemeral" ignore_warn]
              | some inst => [.openConfigEphemeralInstance inst ignore_warn]
            else []
          if rpcOk then ({ s with config := some ⟨mode⟩ }, ev, none)
          else (s, ev, some ("Unable to open the configuration in " ++ mode ++ " mode: error"))

/-- `JuniperJunosModule.close_configuration()`. `teardownOk` stands for
whether the unlock / close-configuration RPC succeeds. The stored session
reference is cleared to `none` before the teardown is attempted. -/
def close_configuration (s : ModuleState) (teardownOk : Bool) :
    ModuleState × List Event × Option String :=
  if s.conn_type ≠ "local" then
    (s, [.forwardToBroker "close_configuration"], none)
  else
    match s.config with
    | none => (s, [], none)
    | some config =>
        let s := { s with config := none }
        let ev : List Event :=
          if config.mode = "exclusive" then [.unlock]
          else if config.mode ∈ ["batch", "dynamic", "private", "ephemeral"] then
            [.closeConfigRpc]
          else []
        if teardownOk then (s, ev, none)
        else (s, ev, some "Unable to close the configuration: error")

/-! ## Rollback: `parse_rollback_option`, `rollback_configuration` -/

/-- Value of a list of decimal digit characters. -/
def digitsToNat (cs : List Char) : Nat :=
  cs.foldl (fun acc c => acc * 10 + (c.toNat - 48)) 0

/-- Strip leading and trailing whitespace from a character list. -/
def stripWs (cs : List Char) : List Char :=
  ((cs.dropWhile Char.isWhitespace).reverse.dropWhile Char.isWhitespace).reverse

/-- Split a character list on a separator character (occurrences of the
separator delimit the groups; adjacent separators yield empty groups). -/
def splitOnChar (c : Char) : List Char → List (List Char)
  | [] => [[]]
  | x :: xs =>
      let rest := splitOnChar c xs
      if x = c then [] :: rest
      else
        match rest with
        | g :: gs => (x :: g) :: gs
        | [] => [[x]]

/-- Python's `int(str)` on a decimal string: surrounding whitespace is
stripped, an optional single sign is allowed, and the digits may be grouped
by single underscores (each group nonempty, digits only). `none` models a
`ValueError`. -/
def pyParseInt (s : String) : Option Int :=
  let t := stripWs s.toList
  let (neg, body) :=
    match t with
    | '-' :: rest => (true, rest)
    | '+' :: rest => (false, rest)
    | _ => (false, t)
  let groups := splitOnChar '_' body
  if groups.all (fun g => !g.isEmpty ∧ g.all Char.isDigit) then
    let n : Nat := digitsToNat groups.flatten
    some (if neg then -(n : Int) else (n : Int))
  else
    none

/-- A parsed rollback id: the literal token `rescue` or an integer. -/
inductive RollbackId where
  | rescue
  | num (n : Int)
deriving Repr, DecidableEq

/-- The `fail_json` message `parse_rollback_option` reports for an invalid
value, naming the value. -/
def rollbackErrMsg (rollback : String) : String :=
  "The value of the rollback option (" ++ rollback ++ ") is invalid. "
    ++ "Must be the string 'rescue' or an int between 0 and 49."

/-- `JuniperJunosModule.parse_rollback_option()`: the `rollback` module
parameter (an Ansible string option, possibly unset) is `none`, the literal
`"rescue"`, or a string parsed by `int()` and accepted when in `[0, 49]`;
anything else is a `fail_json` validation error naming the value. -/
def parse_rollback_option (rollback : Option String) : Except String (Option RollbackId) :=
  match rollback with
  | none => .ok none
  | some r =>
      if r = "rescue" then .ok (some .rescue)
      else
        match pyParseInt r with
        | some int_val =>
            if 0 ≤ int_val ∧ int_val ≤ 49 then .ok (some (.num int_val))
            else .error (rollbackErrMsg r)
        | none => .error (rollbackErrMsg r)

/-- `JuniperJunosModule.rollback_configuration(id)`: `"rescue"` reloads the
rescue configuration; an integer in `[0, 49]` loads that numbered rollback;
anything else is an "Unrecognized rollback configuraton value" failure.
Requires an open device and configuration. -/
def rollback_configuration (s : ModuleState) (id : RollbackId) (rpcOk : Bool) :
    List Event × Option String :=
  if s.conn_type ≠ "local" then
    ([.forwardToBroker "rollback_configuration"], none)
  else if s.dev_open = false ∨ s.config = none then
    ([], some "The device or configuration is not open.")
  else
    match id with
    | .rescue =>
        if rpcOk then ([.rescueRpc], none)
        else ([.rescueRpc], some "Unable to load the rescue configuraton: error")
    | .num n =>
        if 0 ≤ n ∧ n ≤ 49 then
          if rpcOk then ([.rollbackRpc n], none)
          else ([.rollbackRpc n], some ("Unable to load the rollback " ++ toString n
            ++ " configuraton: error"))
        else
          ([], some ("Unrecognized rollback configuraton value: " ++ toString n))

/-- The rollback option's end-to-end path: validate with
`parse_rollback_option`; a validation failure is reported before any device
interaction; an accepted id is handed to `rollback_configuration`. -/
def rollbackPipeline (s : ModuleState) (rollback : Option String) (rpcOk : Bool) :
    List Event × Option String :=
  match parse_rollback_option rollback with
  | .error e => ([], some e)
  | .ok none => ([], none)
  | .ok (some id) => rollback_configuration s id rpcOk

/-! ## `commit_configuration` -/

/-- `JuniperJunosModule.commit_configuration(..., timeout=30, ...)`:
on a local connection, when `self.dev.timeout` is truthy (nonzero) it
replaces the caller-supplied `timeout` before the commit is issued.
`dev_timeout` is the connection's configured RPC timeout. -/
def commit_configuration (s : ModuleState) (dev_timeout : Nat) (timeout : Nat)
    (rpcOk : Bool) : List Event × Option String :=
  let timeout :=
    if s.conn_type = "local" then
      if dev_timeout ≠ 0 then dev_timeout else timeout
    else timeout
  if s.conn_type ≠ "local" then
    ([.forwardToBroker "commit_configuration"], none)
  else if s.dev_open = false ∨ s.config = none then
    ([], some "The device or configuration is not open.")
  else if rpcOk then
    ([.commitRpc timeout], none)
  else
    ([.commitRpc timeout], some "Failure committing the configuraton: error")

end JunosCommon

namespace RpcModule

open JunosCommon

/-- A parsed kwargs / attrs dictionary (one element of the list
`parse_arg_to_list_of_dicts` returns). -/
abbrev Dict := List (String × String)

/-- Lists accepted by the validation block of `rpc.py`'s `main()`:
one rpc name, format, kwargs entry and attrs entry per batch element. -/
structure ValidatedArgs where
  rpcs : List String
  formats : List String
  kwargs : List (Option Dict)
  attrs : List (Option Dict)
deriving Repr, DecidableEq

/-- The argument-validation block of `rpc.py`'s `main()` (run before any RPC
is executed): formats default to `["xml"]`, every format must be a valid
choice, the formats list must have length 1 (broadcast over the rpcs by list
repetition) or exactly the rpc count, and a supplied kwargs / attrs list must
have exactly the rpc count while an absent one defaults to one `None` per
rpc. `.error` models `fail_json`. -/
def validateRpcArgs (rpcs : List String) (formatsOpt : Option (List String))
    (kwargsOpt attrsOpt : Option (List Dict)) : Except String ValidatedArgs :=
  let formats := formatsOpt.getD ["xml"]
  match formats.find? (fun format => format ∉ RPC_OUTPUT_FORMAT_CHOICES) with
  | some format => .error ("The value " ++ format ++ " in formats is invalid. "
      ++ "Must be one of: text, xml, json")
  | none =>
      if formats.length ≠ 1 ∧ formats.length ≠ rpcs.length then
        .error ("The formats option must have a single value, or one value per rpc. "
          ++ "There are " ++ toString rpcs.length ++ " rpcs and "
          ++ toString formats.length ++ " formats.")
      else
        let formats :=
          if formats.length = 1 ∧ rpcs.length > 1 then
            (List.replicate rpcs.length formats).flatten
          else formats
        match kwargsOpt with
        | some kwargs =>
            if kwargs.length ≠ rpcs.length then
              .error ("The kwargs option must have one value per rpc. There are "
                ++ toString rpcs.length ++ " rpcs and " ++ toString kwargs.length
                ++ " kwargs.")
            else
              match attrsOpt with
              | some attrs =>
                  if attrs.length ≠ rpcs.length then
                    .error ("The attrs option must have one valueper rpc. There are "
                      ++ toString rpcs.length ++ " rpcs and " ++ toString attrs.length
                      ++ " attrs.")
                  else
                    .ok ⟨rpcs, formats, kwargs.map some, attrs.map some⟩
              | none =>
                  .ok ⟨rpcs, formats, kwargs.map some, List.replicate rpcs.length none⟩
        | none =>
            match attrsOpt with
            | some attrs =>
                if attrs.length ≠ rpcs.length then
                  .error ("The attrs option must have one valueper rpc. There are "
                    ++ toString rpcs.length ++ " rpcs and " ++ toString attrs.length
                    ++ " attrs.")
                else
                  .ok ⟨rpcs, formats, List.replicate rpcs.length none, attrs.map some⟩
            | none =>
                .ok ⟨rpcs, formats, List.replicate rpcs.length none,
                  List.replicate rpcs.length none⟩

/-- How one RPC of the batch plays out once executed: the PyEZ call raises a
`ConnectError` / `RpcError` (caught, recorded, loop continues), the response
has an unexpected format or type (recorded, loop continues), or everything
succeeds. -/
inductive RpcExecOutcome where
  | raisesError (msg : String)
  | unexpectedResponse (msg : String)
  | success
deriving Repr, DecidableEq

/-- One element of the `results` list `rpc.py` accumulates. -/
structure RpcResult where
  rpc : String
  format : String
  failed : Bool
  msg : String
deriving Repr, DecidableEq

/-- One iteration of the dispatch loop of `rpc.py`'s `main()`: the result
starts as failed (`"failed": True`), and only the path that reaches the end
of the loop body sets `failed` to `False`; error paths record a message and
continue. -/
def runRpcElem (elem : (String × String) × RpcExecOutcome) : RpcResult :=
  let rpc_string := elem.1.1.replace "_" "-"
  let format := elem.1.2
  let result : RpcResult := { rpc := rpc_string, format := format, failed := true, msg := "" }
  match elem.2 with
  | .raisesError m => { result with msg := "Unable to execute the RPC: error: " ++ m }
  | .unexpectedResponse m => { result with msg := m }
  | .success => { result with msg := "The RPC executed successfully.", failed := false }

/-- The dispatch loop over the zipped (rpc, format) pairs and their execution
outcomes: every element contributes exactly one result — no outcome aborts
the batch. -/
def runRpcLoop (elems : List ((String × String) × RpcExecOutcome)) : List RpcResult :=
  elems.map runRpcElem

/-- The overall-failed computation at the end of `main()`: failed starts
`True` and becomes `False` as soon as one result has `failed == False`. -/
def overallFailed (results : List RpcResult) : Bool :=
  results.all (fun result => result.failed)

/-- The final `exit_json` of `rpc.py`'s `main()`. -/
structure ModuleExit where
  results : List RpcResult
  failed : Bool
deriving Repr, DecidableEq

/-- `main()`'s return: a single-element batch exits with that element's
fields (in particular its `failed` flag); a larger batch exits with the
results list and the aggregate failed flag. -/
def rpcModuleExit : List RpcResult → ModuleExit
  | [result] => { results := [result], failed := result.failed }
  | results => { results := results, failed := overallFailed results }

/-- `rpc.py` `main()` end to end after parameter parsing: validation first
(`fail_json` before any RPC runs), then the dispatch loop, then the final
exit. `outcomes` gives each batch element's execution outcome. -/
def rpcMain (rpcs : List String) (formatsOpt : Option (List String))
    (kwargsOpt attrsOpt : Option (List Dict))
    (outcomes : List RpcExecOutcome) : Except String ModuleExit :=
  match validateRpcArgs rpcs formatsOpt kwargsOpt attrsOpt with
  | .error e => .error e
  | .ok va => .ok (rpcModuleExit (runRpcLoop ((va.rpcs.zip va.formats).zip outcomes)))

end RpcModule

namespace JunosCommon

/-! ## Theorems -/

/-- C1: For every checksum-verified put (both the SCP and FTP variants):
if the remote checksum equals the local checksum and is not the `"no_file"`
sentinel, no transfer is performed and the result reports already present;
if the remote checksum is the sentinel or differs, the transfer is performed
and the remote checksum re-queried; if the post-transfer checksums still
differ the operation reports failure with a message containing both checksum
values (the `transferFailedStatus` format, which concatenates both), and if
they match it reports success. -/
theorem put_checksum_decision (env : PutEnv) :
    (md5Sentinel env.remote_before ≠ "no_file" ∧
        md5Sentinel env.remote_before = env.local_checksum →
      scp_file_copy_put env =
        { status := "File already present, skipping the scp", flag := false,
          transferred := false, failJsonMsg := none } ∧
      ftp_file_copy_put env = scp_file_copy_put env) ∧
    (md5Sentinel env.remote_before = "no_file" ∨
        md5Sentinel env.remote_before ≠ env.local_checksum →
      (scp_file_copy_put env).transferred = true ∧
      (md5Sentinel env.remote_after ≠ env.local_checksum →
        (scp_file_copy_put env).failJsonMsg =
          some (transferFailedStatus env.local_checksum (md5Sentinel env.remote_after))) ∧
      (md5Sentinel env.remote_after = env.local_checksum →
        (scp_file_copy_put env).failJsonMsg = none ∧
        (scp_file_copy_put env).status = "File pushed OK" ∧
        (scp_file_copy_put env).flag = true) ∧
      ftp_file_copy_put env = scp_file_copy_put env) := by
  constructor
  · rintro ⟨h1, h2⟩
    have hb : ¬(md5Sentinel env.remote_before = "no_file" ∨
        md5Sentinel env.remote_before ≠ env.local_checksum) := by
      push_neg
      exact ⟨h1, h2⟩
    exact ⟨by simp [scp_file_copy_put, hb], by simp [scp_file_copy_put, ftp_file_copy_put, hb]⟩
  · intro hb
    refine ⟨?_, ?_, ?_, ?_⟩
    · by_cases ha : md5Sentinel env.remote_after = env.local_checksum <;>
        simp [scp_file_copy_put, hb, ha]
    · intro ha
      simp [scp_file_copy_put, hb, ha]
    · intro ha
      simp [scp_file_copy_put, hb, ha]
    · by_cases ha : md5Sentinel env.remote_after = env.local_checksum <;>
        simp [scp_file_copy_put, ftp_file_copy_put, hb, ha]

/-- Witness for C1: a concrete already-present skip and a concrete executed
transfer, obtained from `put_checksum_decision`. -/
theorem put_checksum_decision_witness :
    scp_file_copy_put ⟨"abc", some "abc", some "abc"⟩ =
      { status := "File already present, skipping the scp", flag := false,
        transferred := false, failJsonMsg := none } ∧
    (scp_file_copy_put ⟨"abc", none, some "abc"⟩).transferred = true :=
  ⟨((put_checksum_decision ⟨"abc", some "abc", some "abc"⟩).1 (by decide)).1,
   ((put_checksum_decision ⟨"abc", none, some "abc"⟩).2 (by decide)).1⟩

/-- C9: For every checksum-verified transfer (put and get, SCP and FTP
variants), the boolean second element of the returned pair is `true` exactly
when an actual transfer was performed and the post-transfer checksums match;
in particular the already-present skip case returns `false` — the same flag
value as the checksum-mismatch failure return — so the flag distinguishes
"a transfer occurred (and verified)" rather than "the operation
succeeded". -/
theorem transfer_flag_semantics (penv : PutEnv) (genv : GetEnv) :
    ((scp_file_copy_put penv).flag = true ↔
      (scp_file_copy_put penv).transferred = true ∧
        md5Sentinel penv.remote_after = penv.local_checksum) ∧
    ((ftp_file_copy_put penv).flag = true ↔
      (ftp_file_copy_put penv).transferred = true ∧
        md5Sentinel penv.remote_after = penv.local_checksum) ∧
    ((scp_file_copy_get genv).flag = true ↔
      (scp_file_copy_get genv).transferred = true ∧
        genv.remote_checksum = md5Sentinel genv.local_after) ∧
    ((ftp_file_copy_get genv).flag = true ↔
      (ftp_file_copy_get genv).transferred = true ∧
        genv.remote_checksum = md5Sentinel genv.local_after) ∧
    ((scp_file_copy_put penv).transferred = false →
      (scp_file_copy_put penv).flag = false ∧
      (scp_file_copy_put penv).status = "File already present, skipping the scp") := by
  refine ⟨?_, ?_, ?_, ?_, ?_⟩
  · simp only [scp_file_copy_put]
    split_ifs with hb ha
    · simp [ha]
    · simp only [not_not] at ha
      simp [ha]
    · simp
  · simp only [ftp_file_copy_put]
    split_ifs with hb ha
    · simp [ha]
    · simp only [not_not] at ha
      simp [ha]
    · simp
  · simp only [scp_file_copy_get]
    split_ifs with hb ha
    · simp [ha]
    · simp only [not_not] at ha
      simp [ha]
    · simp
  · simp only [ftp_file_copy_get]
    split_ifs with hb ha
    · simp [ha]
    · simp only [not_not] at ha
      simp [ha]
    · simp
  · simp only [scp_file_copy_put]
    split_ifs with hb ha <;> simp

/-- Witness for C9's skip-case implication: a concrete already-present skip
has `flag = false`. -/
theorem transfer_flag_semantics_witness :
    (scp_file_copy_put ⟨"abc", some "abc", some "abc"⟩).flag = false ∧
    (scp_file_copy_put ⟨"abc", some "abc", some "abc"⟩).status =
      "File already present, skipping the scp" :=
  (transfer_flag_semantics ⟨"abc", some "abc", some "abc"⟩
    ⟨"abc", some "abc", some "abc"⟩).2.2.2.2 (by decide)

/-- C6: `remote_md5` maps a "file not found" error (message containing
"No such file or directory") to the sentinel `"no_file"` instead of raising,
but only when the operation is `"put"`; any other error, or that error under
any other operation, propagates. Symmetrically `local_md5` maps a missing
local file ("No such file") to `"no_file"` only when the operation is
`"get"`, and propagates every other error. Successful checksums pass
through both unchanged. -/
theorem md5_sentinel_mapping (e action c : String) :
    (containsSubstr e "No such file or directory" = true → action = "put" →
      remote_md5 (.err e) action = .ok "no_file") ∧
    (action ≠ "put" → remote_md5 (.err e) action = .err e) ∧
    (containsSubstr e "No such file or directory" = false →
      remote_md5 (.err e) action = .err e) ∧
    remote_md5 (.ok c) action = .ok c ∧
    (containsSubstr e "No such file" = true → action = "get" →
      local_md5 (.err e) action = .ok "no_file") ∧
    (action ≠ "get" → local_md5 (.err e) action = .err e) ∧
    (containsSubstr e "No such file" = false → local_md5 (.err e) action = .err e) ∧
    local_md5 (.ok c) action = .ok c := by
  refine ⟨?_, ?_, ?_, rfl, ?_, ?_, ?_, rfl⟩
  · intro h1 h2
    simp [remote_md5, h1, h2]
  · intro h2
    simp [remote_md5, h2]
  · intro h1
    simp [remote_md5, h1]
  · intro h1 h2
    simp [local_md5, h1, h2]
  · intro h2
    simp [local_md5, h2]
  · intro h1
    simp [local_md5, h1]

/-- Witness for C6: concrete "file not found" messages mapped (or not) to the
sentinel for each operation direction. -/
theorem md5_sentinel_mapping_witness :
    remote_md5 (.err "could not fetch file /tmp/x: No such file or directory") "put" =
      .ok "no_file" ∧
    remote_md5 (.err "could not fetch file /tmp/x: No such file or directory") "get" =
      .err "could not fetch file /tmp/x: No such file or directory" ∧
    remote_md5 (.err "RpcTimeoutError") "put" = .err "RpcTimeoutError" ∧
    local_md5 (.err "IOError: No such file: /tmp/y") "get" = .ok "no_file" ∧
    local_md5 (.err "IOError: No such file: /tmp/y") "put" =
      .err "IOError: No such file: /tmp/y" :=
  ⟨(md5_sentinel_mapping "could not fetch file /tmp/x: No such file or directory"
      "put" "c").1 (by decide) rfl,
   (md5_sentinel_mapping "could not fetch file /tmp/x: No such file or directory"
      "get" "c").2.1 (by decide),
   (md5_sentinel_mapping "RpcTimeoutError" "put" "c").2.2.1 (by decide),
   (md5_sentinel_mapping "IOError: No such file: /tmp/y" "get" "c").2.2.2.2.1
     (by decide) rfl,
   (md5_sentinel_mapping "IOError: No such file: /tmp/y" "put" "c").2.2.2.2.2.1
     (by decide)⟩

/-- C2: on a local connection, calling `close_configuration` when no
configuration session is open is a no-op — no device interaction, no
failure; and after any call to `close_configuration` the stored session
reference is `none` (it is cleared before teardown, so even a teardown
failure leaves it cleared), hence a second call in a row is a no-op. -/
theorem close_configuration_idempotent (s : ModuleState) (ok1 ok2 : Bool)
    (h : s.conn_type = "local") :
    (s.config = none → close_configuration s ok1 = (s, [], none)) ∧
    (close_configuration s ok1).1.config = none ∧
    close_configuration (close_configuration s ok1).1 ok2 =
      ((close_configuration s ok1).1, [], none) := by
  obtain ⟨ct, dev, cfg⟩ := s
  simp only [ModuleState.mk.injEq] at h ⊢
  subst h
  cases cfg with
  | none =>
      refine ⟨fun _ => by simp [close_configuration], by simp [close_configuration], ?_⟩
      simp [close_configuration]
  | some config =>
      refine ⟨fun hnone => by simp at hnone, ?_, ?_⟩ <;>
        cases ok1 <;> simp [close_configuration]

/-- Witness for C2: a concrete double close on an open private session whose
teardown RPC fails. -/
theorem close_configuration_idempotent_witness :
    (close_configuration ⟨"local", true, some ⟨"private"⟩⟩ false).1.config = none ∧
    close_configuration (close_configuration ⟨"local", true, some ⟨"private"⟩⟩ false).1 true =
      ((close_configuration ⟨"local", true, some ⟨"private"⟩⟩ false).1, [], none) :=
  ⟨(close_configuration_idempotent ⟨"local", true, some ⟨"private"⟩⟩ false true rfl).2.1,
   (close_configuration_idempotent ⟨"local", true, some ⟨"private"⟩⟩ false true rfl).2.2⟩

/-- C10: on a local connection, `open_configuration` validates its arguments
only when no session is open: when the stored config reference is not `none`,
a call with an invalid mode, or with an ephemeral instance while the mode is
not `"ephemeral"`, returns silently — unchanged state, no device interaction,
no failure report. -/
theorem open_configuration_noop_when_open (s : ModuleState) (mode : String)
    (iw : Option IgnoreWarningArg) (einst : Option String) (ok : Bool)
    (hl : s.conn_type = "local") (hc : s.config ≠ none)
    (hbad : mode ∉ CONFIG_MODE_CHOICES ∨ (mode ≠ "ephemeral" ∧ einst ≠ none)) :
    open_configuration s mode iw einst ok = (s, [], none) := by
  obtain ⟨ct, dev, cfg⟩ := s
  simp only [ModuleState.mk.injEq] at hl
  subst hl
  cases cfg with
  | none => exact absurd rfl hc
  | some config => simp [open_configuration]

/-- Witness for C10: with a private session already open, a call with the
invalid mode `"bogus"` and a call with an ephemeral instance under mode
`"private"` are both silent no-ops. -/
theorem open_configuration_noop_when_open_witness :
    open_configuration ⟨"local", true, some ⟨"private"⟩⟩ "bogus" none none true =
      (⟨"local", true, some ⟨"private"⟩⟩, [], none) ∧
    open_configuration ⟨"local", true, some ⟨"private"⟩⟩ "private" none (some "eph1") true =
      (⟨"local", true, some ⟨"private"⟩⟩, [], none) :=
  ⟨open_configuration_noop_when_open ⟨"local", true, some ⟨"private"⟩⟩ "bogus" none none
      true rfl (by decide) (Or.inl (by decide)),
   open_configuration_noop_when_open ⟨"local", true, some ⟨"private"⟩⟩ "private" none
      (some "eph1") true rfl (by decide) (Or.inr ⟨by decide, by decide⟩)⟩

/-- C4: for every rollback option value: the literal string `"rescue"`
issues the rescue-configuration reload; a string representing an integer
`i` with `0 ≤ i ≤ 49` issues the numbered rollback `i`; every other value
fails validation with the error message naming the value
(`rollbackErrMsg`, which embeds the value), without any device
interaction. -/
theorem rollback_validation (s : ModuleState) (r : String) (rpcOk : Bool)
    (hl : s.conn_type = "local") (hd : s.dev_open = true) (hc : s.config ≠ none) :
    (r = "rescue" → (rollbackPipeline s (some r) rpcOk).1 = [.rescueRpc]) ∧
    (∀ n : Int, pyParseInt r = some n → 0 ≤ n → n ≤ 49 →
      (rollbackPipeline s (some r) rpcOk).1 = [.rollbackRpc n]) ∧
    (r ≠ "rescue" → (∀ n : Int, pyParseInt r = some n → n < 0 ∨ 49 < n) →
      rollbackPipeline s (some r) rpcOk = ([], some (rollbackErrMsg r))) := by
  obtain ⟨ct, dev, cfg⟩ := s
  simp only [ModuleState.mk.injEq] at hl hd
  subst hl
  subst hd
  have hcfg : cfg ≠ none := hc
  refine ⟨?_, ?_, ?_⟩
  · intro hr
    subst hr
    cases cfg with
    | none => exact absurd rfl hcfg
    | some config =>
        cases rpcOk <;>
          simp [rollbackPipeline, parse_rollback_option, rollback_configuration]
  · intro n hn h0 h49
    cases cfg with
    | none => exact absurd rfl hcfg
    | some config =>
        by_cases hr : r = "rescue"
        · subst hr
          simp [pyParseInt, stripWs, splitOnChar] at hn
        · cases rpcOk <;>
            simp [rollbackPipeline, parse_rollback_option, hr, hn,
              rollback_configuration, h0, h49]
  · intro hr hout
    simp only [rollbackPipeline, parse_rollback_option, if_neg hr]
    cases hpi : pyParseInt r with
    | none => simp
    | some n =>
        have := hout n hpi
        have hnot : ¬(0 ≤ n ∧ n ≤ 49) := by omega
        simp [hnot]

/-- Witness for C4: `"rescue"`, `"5"`, `"50"`, `"-1"` and `"bogus"` behave
as the theorem states on a concrete open local session. -/
theorem rollback_validation_witness :
    (rollbackPipeline ⟨"local", true, some ⟨"exclusive"⟩⟩ (some "rescue") true).1 =
      [.rescueRpc] ∧
    (rollbackPipeline ⟨"local", true, some ⟨"exclusive"⟩⟩ (some "5") true).1 =
      [.rollbackRpc 5] ∧
    rollbackPipeline ⟨"local", true, some ⟨"exclusive"⟩⟩ (some "50") true =
      ([], some (rollbackErrMsg "50")) ∧
    rollbackPipeline ⟨"local", true, some ⟨"exclusive"⟩⟩ (some "-1") true =
      ([], some (rollbackErrMsg "-1")) ∧
    rollbackPipeline ⟨"local", true, some ⟨"exclusive"⟩⟩ (some "bogus") true =
      ([], some (rollbackErrMsg "bogus")) :=
  ⟨(rollback_validation ⟨"local", true, some ⟨"exclusive"⟩⟩ "rescue" true rfl rfl
      (by decide)).1 rfl,
   (rollback_validation ⟨"local", true, some ⟨"exclusive"⟩⟩ "5" true rfl rfl
      (by decide)).2.1 5 (by decide) (by decide) (by decide),
   (rollback_validation ⟨"local", true, some ⟨"exclusive"⟩⟩ "50" true rfl rfl
      (by decide)).2.2 (by decide) (fun n hn => by
        rw [show pyParseInt "50" = some 50 from by decide] at hn
        injection hn with h
        omega),
   (rollback_validation ⟨"local", true, some ⟨"exclusive"⟩⟩ "-1" true rfl rfl
      (by decide)).2.2 (by decide) (fun n hn => by
        rw [show pyParseInt "-1" = some (-1) from by decide] at hn
        injection hn with h
        omega),
   (rollback_validation ⟨"local", true, some ⟨"exclusive"⟩⟩ "bogus" true rfl rfl
      (by decide)).2.2 (by decide) (fun n hn => by
        rw [show pyParseInt "bogus" = none from by decide] at hn
        exact absurd hn (by simp))⟩

/-- C7 counterexample: with a caller-supplied ignore-warning value of bool
`False`, `open_configuration` in `"private"` mode passes the open-configuration
RPC the bare bool — the built-in `ignore_warn` list is replaced entirely, so
the effective filter is not a list and does not include the built-in warning
text "uncommitted changes will be discarded on exit". -/
theorem ignore_warning_bool_counterexample :
    (open_configuration ⟨"local", true, none⟩ "private"
        (some (.bool false)) none true).2.1 =
      [.openConfigRpc "private" (.flag false)] ∧
    filterIncludes (.flag false) builtinWarning = false :=
  ⟨rfl, rfl⟩

/-- C7 (amended): for every call to `open_configuration` in a non-exclusive
mode and every caller-supplied ignore-warning value that is a single string,
a list of strings, or absent, the effective filter passed to the
open-configuration RPC is the built-in warning text "uncommitted changes
will be discarded on exit" with the caller-supplied string(s) merged after
it, so it includes the built-in warning; a caller-supplied bool, however,
replaces the accumulated list with the bare bool
(`ignore_warning_bool_counterexample`). -/
theorem ignore_warning_merge (s : ModuleState) (mode : String)
    (iw : Option IgnoreWarningArg) (einst : Option String) (rpcOk : Bool)
    (hl : s.conn_type = "local") (hc : s.config = none)
    (hm : mode ∈ (["private", "dynamic", "batch", "ephemeral"] : List String))
    (he : mode = "ephemeral" ∨ einst = none)
    (hb : ∀ b, iw ≠ some (.bool b)) :
    (open_configuration s mode iw einst rpcOk).2.1.map eventFilter =
      [some (.patterns ([builtinWarning] ++ callerStrings iw))] ∧
    filterIncludes (.patterns ([builtinWarning] ++ callerStrings iw))
      builtinWarning = true := by
  have hiw : effectiveIgnoreWarn iw = .patterns ([builtinWarning] ++ callerStrings iw) := by
    match iw with
    | none => simp [effectiveIgnoreWarn, callerStrings]
    | some (.bool b) => exact absurd rfl (hb b)
    | some (.str w) => simp [effectiveIgnoreWarn, callerStrings]
    | some (.list l) => simp [effectiveIgnoreWarn, callerStrings]
  constructor
  · obtain ⟨ct, dev, cfg⟩ := s
    simp only [ModuleState.mk.injEq] at hl hc
    subst hl
    subst hc
    simp only [List.mem_cons, List.mem_singleton, List.not_mem_nil, or_false] at hm
    rcases hm with hm | hm | hm | hm <;> subst hm
    · rcases he with he | he
      · exact absurd he (by decide)
      · subst he
        cases rpcOk <;> cases dev <;>
          simp [open_configuration, CONFIG_MODE_CHOICES, eventFilter, hiw]
    · rcases he with he | he
      · exact absurd he (by decide)
      · subst he
        cases rpcOk <;> cases dev <;>
          simp [open_configuration, CONFIG_MODE_CHOICES, eventFilter, hiw]
    · rcases he with he | he
      · exact absurd he (by decide)
      · subst he
        cases rpcOk <;> cases dev <;>
          simp [open_configuration, CONFIG_MODE_CHOICES, eventFilter, hiw]
    · cases einst with
      | none =>
          cases rpcOk <;> cases dev <;>
            simp [open_configuration, CONFIG_MODE_CHOICES, eventFilter, hiw]
      | some inst =>
          cases rpcOk <;> cases dev <;>
            simp [open_configuration, CONFIG_MODE_CHOICES, eventFilter, hiw]
  · simp [filterIncludes]

/-- Witness for C7's amended theorem: a concrete private-mode open with a
caller-supplied list of warning strings. -/
theorem ignore_warning_merge_witness :
    (open_configuration ⟨"local", true, none⟩ "private"
        (some (.list ["warn1", "warn2"])) none true).2.1.map eventFilter =
      [some (.patterns [builtinWarning, "warn1", "warn2"])] ∧
    filterIncludes (.patterns [builtinWarning, "warn1", "warn2"]) builtinWarning = true :=
  ignore_warning_merge ⟨"local", true, none⟩ "private"
    (some (.list ["warn1", "warn2"])) none true rfl rfl (by decide)
    (Or.inr rfl) (fun b => by simp)

/-- C8 counterexample: on a local connection with a configured device RPC
timeout of 120, a caller-supplied commit timeout of 600 is not the value
passed to the commit — the commit is issued with timeout 120. -/
theorem commit_timeout_counterexample :
    commit_configuration ⟨"local", true, some ⟨"exclusive"⟩⟩ 120 600 true =
      ([.commitRpc 120], none) ∧
    decide (commit_configuration ⟨"local", true, some ⟨"exclusive"⟩⟩ 120 600 true =
      ([.commitRpc 600], none)) = false :=
  ⟨rfl, by decide⟩

/-- C8 (amended): for every `commit_configuration` call on a local
connection, the connection's configured RPC timeout is used for the commit
whenever it is set (truthy, i.e. nonzero), overriding any caller-supplied
timeout; the caller-supplied timeout (whose signature default is 30) is
passed to the commit only when the device timeout is zero/unset. -/
theorem commit_timeout_device_override (s : ModuleState)
    (dev_timeout timeout : Nat) (rpcOk : Bool) (hl : s.conn_type = "local")
    (hd : s.dev_open = true) (hc : s.config ≠ none) :
    (dev_timeout ≠ 0 →
      (commit_configuration s dev_timeout timeout rpcOk).1 = [.commitRpc dev_timeout]) ∧
    (dev_timeout = 0 →
      (commit_configuration s dev_timeout timeout rpcOk).1 = [.commitRpc timeout]) := by
  obtain ⟨ct, dev, cfg⟩ := s
  simp only [ModuleState.mk.injEq] at hl hd
  subst hl
  subst hd
  cases cfg with
  | none => exact absurd rfl hc
  | some config =>
      constructor
      · intro hnz
        cases rpcOk <;> simp [commit_configuration, hnz]
      · intro hz
        subst hz
        cases rpcOk <;> simp [commit_configuration]

/-- Witness for C8's amended theorem: a nonzero device timeout wins,
a zero device timeout falls back to the caller value. -/
theorem commit_timeout_device_override_witness :
    (commit_configuration ⟨"local", true, some ⟨"exclusive"⟩⟩ 120 600 true).1 =
      [.commitRpc 120] ∧
    (commit_configuration ⟨"local", true, some ⟨"exclusive"⟩⟩ 0 600 true).1 =
      [.commitRpc 600] :=
  ⟨(commit_timeout_device_override ⟨"local", true, some ⟨"exclusive"⟩⟩ 120 600 true
      rfl rfl (by decide)).1 (by decide),
   (commit_timeout_device_override ⟨"local", true, some ⟨"exclusive"⟩⟩ 0 600 true
      rfl rfl (by decide)).2 rfl⟩

end JunosCommon

namespace RpcModule

open JunosCommon

/-- `rpcModuleExit` never drops or alters the per-element results list. -/
theorem rpcModuleExit_results (rs : List RpcResult) :
    (rpcModuleExit rs).results = rs := by
  match rs with
  | [] => rfl
  | [r] => rfl
  | a :: b :: t => rfl

/-- For a batch of any size other than one, `rpcModuleExit` reports the
aggregate `overallFailed` flag. -/
theorem rpcModuleExit_ne_one (rs : List RpcResult) (h : rs.length ≠ 1) :
    rpcModuleExit rs = ⟨rs, overallFailed rs⟩ := by
  match rs with
  | [] => rfl
  | [r] => exact absurd rfl h
  | a :: b :: t => rfl

/-- C3: in batched RPC dispatch, a failure of one RPC does not abort the
batch — every batch element contributes exactly one result, a failing
element's result records `failed = true` while the loop continues — and for
a batch with more than one RPC the overall result is failed if and only if
every element failed, with per-element failure flags preserved in the
results list. -/
theorem batch_failure_isolation (elems : List ((String × String) × RpcExecOutcome)) :
    (runRpcLoop elems).length = elems.length ∧
    (rpcModuleExit (runRpcLoop elems)).results = runRpcLoop elems ∧
    (∀ i (h : i < elems.length),
      ((runRpcLoop elems).get ⟨i, by simpa [runRpcLoop] using h⟩).failed =
        decide ((elems.get ⟨i, h⟩).2 ≠ .success)) ∧
    (1 < elems.length →
      ((rpcModuleExit (runRpcLoop elems)).failed = true ↔
        ∀ r ∈ runRpcLoop elems, r.failed = true)) := by
  refine ⟨by simp [runRpcLoop], rpcModuleExit_results _, ?_, ?_⟩
  · intro i h
    simp only [runRpcLoop, List.get_eq_getElem, List.getElem_map]
    have hpt : ∀ x : (String × String) × RpcExecOutcome,
        (runRpcElem x).failed = decide (x.2 ≠ .success) := by
      rintro ⟨⟨rpc, fmt⟩, out⟩
      cases out <;> simp [runRpcElem]
    exact hpt _
  · intro hlen
    rw [rpcModuleExit_ne_one _ (by simp [runRpcLoop]; omega)]
    simp [overallFailed, List.all_eq_true]

/-- Witness for C3: a two-element batch with one failing and one succeeding
RPC — the aggregate iff and the first element's preserved failure flag. -/
theorem batch_failure_isolation_witness :
    ((rpcModuleExit (runRpcLoop [(("get-a", "xml"), .raisesError "boom"),
        (("get-b", "xml"), .success)])).failed = true ↔
      ∀ r ∈ runRpcLoop [(("get-a", "xml"), .raisesError "boom"),
        (("get-b", "xml"), .success)], r.failed = true) ∧
    ((runRpcLoop [(("get-a", "xml"), .raisesError "boom"),
        (("get-b", "xml"), .success)]).get ⟨0, by decide⟩).failed =
      decide (([(("get-a", "xml"), RpcExecOutcome.raisesError "boom"),
        (("get-b", "xml"), .success)].get ⟨0, by decide⟩).2 ≠ .success) :=
  ⟨(batch_failure_isolation [(("get-a", "xml"), .raisesError "boom"),
      (("get-b", "xml"), .success)]).2.2.2 (by decide),
   (batch_failure_isolation [(("get-a", "xml"), .raisesError "boom"),
      (("get-b", "xml"), .success)]).2.2.1 0 (by decide)⟩

/-- Python's `[a] * n` list repetition. -/
theorem flatten_replicate_singleton {α : Type} (n : Nat) (a : α) :
    (List.replicate n [a]).flatten = List.replicate n a := by
  induction n with
  | zero => rfl
  | succ k ih => simp [List.replicate_succ, ih]

/-- Each dispatched result carries the format zipped with its RPC. -/
theorem runRpcElem_format (x : (String × String) × RpcExecOutcome) :
    (runRpcElem x).format = x.1.2 := by
  rcases x with ⟨⟨rpc, fmt⟩, out⟩
  cases out <;> rfl

/-- C5: in batched RPC dispatch, list-length validation happens before any
RPC is executed (a validation failure yields an error with no results): a
formats list of length 1 is broadcast so that every result carries that
format; a formats list whose length equals the RPC count is used
positionally; any other formats length fails validation; a supplied kwargs
or attrs bundle whose length differs from the RPC count fails validation;
an absent bundle defaults to one absent entry per RPC. -/
theorem batch_validation (rpcs formats : List String) (f : String)
    (kwargs attrs : List Dict) (kwargsOpt attrsOpt : Option (List Dict))
    (outcomes : List RpcExecOutcome) :
    (f ∈ RPC_OUTPUT_FORMAT_CHOICES → 0 < rpcs.length →
      ∃ ex, rpcMain rpcs (some [f]) none none outcomes = .ok ex ∧
        ∀ r ∈ ex.results, r.format = f) ∧
    ((∀ fm ∈ formats, fm ∈ RPC_OUTPUT_FORMAT_CHOICES) →
      formats.length = rpcs.length →
      ∃ va, validateRpcArgs rpcs (some formats) none none = .ok va ∧
        va.formats = formats ∧ va.rpcs = rpcs) ∧
    ((∀ fm ∈ formats, fm ∈ RPC_OUTPUT_FORMAT_CHOICES) →
      formats.length ≠ 1 → formats.length ≠ rpcs.length →
      rpcMain rpcs (some formats) kwargsOpt attrsOpt outcomes =
        .error ("The formats option must have a single value, or one value per rpc. "
          ++ "There are " ++ toString rpcs.length ++ " rpcs and "
          ++ toString formats.length ++ " formats.")) ∧
    (kwargs.length ≠ rpcs.length →
      rpcMain rpcs none (some kwargs) attrsOpt outcomes =
        .error ("The kwargs option must have one value per rpc. There are "
          ++ toString rpcs.length ++ " rpcs and " ++ toString kwargs.length
          ++ " kwargs.")) ∧
    (attrs.length ≠ rpcs.length →
      rpcMain rpcs none none (some attrs) outcomes =
        .error ("The attrs option must have one valueper rpc. There are "
          ++ toString rpcs.length ++ " rpcs and " ++ toString attrs.length
          ++ " attrs.")) ∧
    (∃ va, validateRpcArgs rpcs none none none = .ok va ∧
      va.kwargs = List.replicate rpcs.length none ∧
      va.attrs = List.replicate rpcs.length none) := by
  have hfindx : ((["xml"] : List String).find?
      (fun format => format ∉ RPC_OUTPUT_FORMAT_CHOICES)) = none := by
    simp [RPC_OUTPUT_FORMAT_CHOICES]
  refine ⟨?_, ?_, ?_, ?_, ?_, ?_⟩
  · intro hf hn
    have hfind : (([f] : List String).find?
        (fun format => format ∉ RPC_OUTPUT_FORMAT_CHOICES)) = none := by
      simp [hf]
    have hva : validateRpcArgs rpcs (some [f]) none none =
        .ok ⟨rpcs, List.replicate rpcs.length f, List.replicate rpcs.length none,
          List.replicate rpcs.length none⟩ := by
      by_cases h1 : 1 < rpcs.length
      · simp [validateRpcArgs, hfind, h1, flatten_replicate_singleton, hf]
      · have hone : rpcs.length = 1 := by omega
        simp [validateRpcArgs, hfind, h1, hone, hf]
    refine ⟨rpcModuleExit (runRpcLoop
        ((rpcs.zip (List.replicate rpcs.length f)).zip outcomes)), ?_, ?_⟩
    · simp [rpcMain, hva]
    · intro r hr
      rw [rpcModuleExit_results] at hr
      obtain ⟨e, he, rfl⟩ := List.mem_map.mp hr
      rcases e with ⟨⟨rpc, fmt⟩, out⟩
      have h2 := (List.of_mem_zip he).1
      have h3 := (List.of_mem_zip h2).2
      have h4 := List.eq_of_mem_replicate h3
      rw [runRpcElem_format]
      exact h4
  · intro hall hlen
    have hfind : List.find?
        (fun format => !decide (format ∈ RPC_OUTPUT_FORMAT_CHOICES)) formats = none := by
      rw [List.find?_eq_none]
      intro x hx
      simp [hall x hx]
    refine ⟨⟨rpcs, formats, List.replicate rpcs.length none,
      List.replicate rpcs.length none⟩, ?_, rfl, rfl⟩
    by_cases h1 : formats.length = 1
    · have hn1 : ¬(1 < rpcs.length) := by omega
      simp [validateRpcArgs, hfind, hlen, h1, hn1]
    · simp [validateRpcArgs, hfind, hlen, h1]
      intro h2 h3
      exact absurd h3 (by omega)
  · intro hall h1 h2
    have hfind : List.find?
        (fun format => !decide (format ∈ RPC_OUTPUT_FORMAT_CHOICES)) formats = none := by
      rw [List.find?_eq_none]
      intro x hx
      simp [hall x hx]
    simp [rpcMain, validateRpcArgs, hfind, h1, h2]
  · intro hk
    by_cases h1 : 1 < rpcs.length <;>
      simp [rpcMain, validateRpcArgs, RPC_OUTPUT_FORMAT_CHOICES, hk, h1]
  · intro ha
    by_cases h1 : 1 < rpcs.length <;>
      simp [rpcMain, validateRpcArgs, RPC_OUTPUT_FORMAT_CHOICES, ha, h1]
  · refine ⟨⟨rpcs, if (["xml"] : List String).length = 1 ∧ 1 < rpcs.length then
        (List.replicate rpcs.length ["xml"]).flatten else ["xml"],
      List.replicate rpcs.length none, List.replicate rpcs.length none⟩, ?_, rfl, rfl⟩
    by_cases h1 : 1 < rpcs.length <;>
      simp [validateRpcArgs, RPC_OUTPUT_FORMAT_CHOICES, h1]

/-- Witness for C5: three RPC names with one format broadcast to all
results; three names with two formats failing validation; kwargs and attrs
length mismatches failing validation; absent bundles defaulting. -/
theorem batch_validation_witness :
    (∃ ex, rpcMain ["get-a", "get-b", "get-c"] (some ["text"]) none none
        [.success, .success, .success] = .ok ex ∧
      ∀ r ∈ ex.results, r.format = "text") ∧
    rpcMain ["get-a", "get-b", "get-c"] (some ["text", "xml"]) none none
        [.success, .success, .success] =
      .error ("The formats option must have a single value, or one value per rpc. "
        ++ "There are 3 rpcs and 2 formats.") ∧
    rpcMain ["get-a", "get-b", "get-c"] none (some [[("k", "v")]]) none
        [.success, .success, .success] =
      .error ("The kwargs option must have one value per rpc. There are "
        ++ "3 rpcs and 1 kwargs.") ∧
    (∃ va, validateRpcArgs ["get-a", "get-b", "get-c"] none none none = .ok va ∧
      va.kwargs = [none, none, none] ∧ va.attrs = [none, none, none]) :=
  ⟨(batch_validation ["get-a", "get-b", "get-c"] [] "text" [] [] none none
      [.success, .success, .success]).1 (by decide) (by decide),
   (batch_validation ["get-a", "get-b", "get-c"] ["text", "xml"] "x" [] [] none none
      [.success, .success, .success]).2.2.1 (by decide) (by decide) (by decide),
   (batch_validation ["get-a", "get-b", "get-c"] [] "x" [[("k", "v")]] [] none none
      [.success, .success, .success]).2.2.2.1 (by decide),
   (batch_validation ["get-a", "get-b", "get-c"] [] "x" [] [] none none
      [.success, .success, .success]).2.2.2.2.2⟩

end RpcModule
